import Mathlib

/-!
Verification of `camera_motion_recorder.py`.

Shallow embedding of the core logic of the webcam motion detection and
recording program, together with theorems settling the specification
claims about it.

Conventions of the embedding:
* Python floats are modelled by exact rationals (`ℚ`); the arithmetic the
  claims touch is a single multiply/divide and comparisons, where the
  rational model is faithful to the claims' content.
* The OpenCV collaborators (capture device, video writer) are modelled as
  function parameters describing their observable behaviour.
* Python locals of `main` that may be read before assignment are modelled
  as `Option` values, `none` meaning "never assigned" (reading such a
  local raises `UnboundLocalError` in Python).
* Side effects (prints, sink release, frame writes, the per-tick call to
  `display_information`) are recorded as an explicit event list.
-/

namespace CameraMotionRecorder

/-! ## Settings (module constants, source lines 19-31) -/

/-- Source line 20: nominal motion detection sensitivity. -/
def nominal_sensitivity : ℚ := 700

/-- Source line 21: recording duration in seconds. -/
def default_recording_duration : ℚ := 30

/-- Source line 22: folder for recordings. -/
def output_folder : String := "recordings"

/-! ## Sensitivity Calibrator (source `initialize`, lines 226-259)

Source line 253 reads and rebinds the module-level global `sensitivity`:
`sensitivity = sensitivity * (max_width * max_height) / (1280 * 720)`.
We embed that assignment as a state transition on the global: the
function takes the current value of `sensitivity` and returns its new
value. -/

/-- The effect of source line 253 on the global `sensitivity`:
new value = old value * (width*height) / (1280*720). -/
def initialize_sensitivity (sens : ℚ) (max_width max_height : ℕ) : ℚ :=
  sens * ((max_width : ℚ) * (max_height : ℚ)) / (1280 * 720)

/-! ## Resolution Negotiator (source `find_highest_resolution`, lines 182-223)

The capture device is modelled by a function `dev` from the probe index
and the requested `(width, height)` pair to the pair read back by the two
`cap.get` calls after `cap.set`; this covers arbitrary (even stateful)
device behaviour across the probes. -/

/-- Source lines 200-205: candidate resolutions in descending order. -/
def resolutions_to_try : List (ℕ × ℕ) :=
  [(1920, 1080), (1280, 720), (640, 480), (320, 240)]

/-- Source lines 210-221: probe the candidates in order, remembering each
probe as a (request, read-back) pair, and stop at the first exact match.
Returns the accepted `(max_width, max_height)` (initialised `(0, 0)` at
lines 207-208) together with the list of probes made. -/
def find_highest_resolution_trace (dev : ℕ → ℕ × ℕ → ℕ × ℕ) :
    ℕ → List (ℕ × ℕ) → (ℕ × ℕ) × List ((ℕ × ℕ) × (ℕ × ℕ))
  | _, [] => ((0, 0), [])
  | i, c :: rest =>
    let r := dev i c
    if r = c then (c, [(c, r)])
    else
      let next := find_highest_resolution_trace dev (i + 1) rest
      (next.1, (c, r) :: next.2)

/-- Source lines 182-223: the value `find_highest_resolution` returns. -/
def find_highest_resolution (dev : ℕ → ℕ × ℕ → ℕ × ℕ) : ℕ × ℕ :=
  (find_highest_resolution_trace dev 0 resolutions_to_try).1

/-- Source lines 403-406 of `main`: after resolution negotiation the code
only chooses a message; it proceeds in both branches (no `exit` call), so
`(0, 0)` is reported but not fatal.  Modelled as always returning
`Except.ok` with the printed message. -/
def resolution_report (wh : ℕ × ℕ) : Except ℕ String :=
  if wh.1 = 0 ∨ wh.2 = 0 then
    Except.ok ("Error: No supported resolution found.")
  else
    Except.ok ("Highest supported resolution: " ++ toString wh.1 ++ "x" ++ toString wh.2)

/-! ## Output Negotiator (source `start_recording`, lines 262-314)

The writer collaborator is modelled by `opens c fname fps wh`: whether
`cv2.VideoWriter(fname, fourcc-of-c, fps, wh).isOpened()` holds. -/

/-- Source line 285: preferred container formats, in desired order. -/
def preferred_containers : List String := ["MKV", "MP4"]

/-- Source lines 288-297: codec fourcc and file extension per container;
`none` models the invalid-container `continue` branch. -/
def container_params (c : String) : Option (String × String) :=
  if c = "MKV" then some (("X264"), (".mkv"))
  else if c = "MP4" then some (("mp4v"), (".mp4"))
  else none

/-- Source lines 287-314: the `for ... else` loop.  Tries each container
in order; on the first writer that reports itself open returns
`Except.ok (container, extension)`; if the list is exhausted, the `else`
arm runs `exit(1)`, modelled as `Except.error 1`.  The second component
is the list of file names for which a writer open was attempted. -/
def start_recording (opens : String → String → ℕ → ℕ × ℕ → Bool)
    (video_name : String) (max_width max_height : ℕ) :
    List String → Except ℕ (String × String) × List String
  | [] => (Except.error 1, [])
  | c :: rest =>
    match container_params c with
    | none => start_recording opens video_name max_width max_height rest
    | some (fourcc, ext) =>
      let video_file_name := video_name ++ ext
      if opens fourcc video_file_name 20 (max_width, max_height) then
        (Except.ok (c, ext), [video_file_name])
      else
        let r := start_recording opens video_name max_width max_height rest
        (r.1, video_file_name :: r.2)

/-! ## Frame Annotation Pipeline (source `display_information`, lines 317-371)

A frame is modelled by the list of `cv2.putText` operations applied to it
(in program order) plus whether the semi-transparent contour highlight
was composited onto it.  The width of the rendered timestamp string
(`cv2.getTextSize`, an external text-metrics call) is a parameter. -/

/-- One `cv2.putText` call: text, position, font scale, BGR colour,
thickness. -/
structure TextOp where
  text : String
  x : ℤ
  y : ℤ
  scale : ℚ
  color : ℕ × ℕ × ℕ
  thickness : ℕ
deriving DecidableEq, Repr

/-- A frame after annotation: the text overlay drawn on it and whether
the alpha-blended contour highlight layer was composited over it. -/
structure RenderedFrame where
  texts : List TextOp
  highlighted : Bool
deriving DecidableEq, Repr

/-- Source line 368: blend factor of the highlight layer. -/
def highlight_alpha : ℚ := 1 / 4

/-- Source lines 317-371.  `current_time` is the string produced by
`time.strftime` at line 338 and `time_text_width` its rendered width from
`cv2.getTextSize` at line 341.  Returns the pair the Python function
returns: `(frame, outframe)`, where `frame` is the highlighted display
frame shown in the UI and `outframe` the frame written to the video
file. -/
def display_information (current_time : String) (time_text_width : ℤ)
    (max_width : ℤ) (motion_detected_realtime : Bool)
    (recording_time_text recording_number_text : String) :
    RenderedFrame × RenderedFrame :=
  let text_x := max_width - time_text_width - 10
  let text_y : ℤ := 30
  let white : ℕ × ℕ × ℕ := (255, 255, 255)
  -- lines 344-351: overlay on the display frame `frame`
  let status : TextOp :=
    if motion_detected_realtime then
      { text := ("Motion detected"), x := 10, y := 30, scale := 8/10,
        color := (0, 0, 255), thickness := 2 }
    else
      { text := ("No motion detected"), x := 10, y := 30, scale := 8/10,
        color := (0, 255, 0), thickness := 2 }
  let frame_texts : List TextOp :=
    [ { text := current_time, x := text_x, y := text_y, scale := 1/2,
        color := white, thickness := 1 },
      status,
      { text := recording_time_text, x := 10, y := 60, scale := 6/10,
        color := white, thickness := 2 },
      { text := recording_number_text, x := 10, y := 90, scale := 6/10,
        color := white, thickness := 2 } ]
  -- lines 354-356: overlay on the recording frame `outframe`
  let outframe_texts : List TextOp :=
    [ { text := current_time, x := text_x, y := text_y, scale := 1/2,
        color := white, thickness := 1 },
      { text := recording_time_text, x := 10, y := 30, scale := 6/10,
        color := white, thickness := 2 },
      { text := recording_number_text, x := 10, y := 60, scale := 6/10,
        color := white, thickness := 2 } ]
  -- lines 361-369: the contour highlight is blended onto `frame` only
  ({ texts := frame_texts, highlighted := true },
   { texts := outframe_texts, highlighted := false })

/-! ## Motion Trigger State Machine (source `main`, lines 414-481)

One iteration of the `while True` loop is a tick.  The tick carries the
contour areas of the frame (`cv2.contourArea` on each element of
`contours`, in order), the value of `time.time()` during the iteration
(the several calls within one iteration are nanoseconds apart and are
modelled as equal), and the `time.strftime` string used in the video file
name at line 439. -/

/-- External inputs of one loop iteration. -/
structure Tick where
  areas : List ℚ
  now : ℚ
  timeName : String
deriving Repr

/-- The open `cv2.VideoWriter` handle held in the global `video_out`:
the sequence number of the session that created it. -/
structure Writer where
  id : ℕ
deriving DecidableEq, Repr

/-- Run-constant collaborator behaviour and settings read by the loop. -/
structure Ctx where
  /-- The global `sensitivity` after `initialize` scaled it. -/
  sensitivity : ℚ
  /-- Source line 21 setting, 30 in the source. -/
  recording_duration : ℚ := default_recording_duration
  /-- Writer collaborator: does `cv2.VideoWriter(fname, fourcc, fps, wh)`
  report itself open? -/
  opens : String → String → ℕ → ℕ × ℕ → Bool
  /-- Negotiated capture resolution `(max_width, max_height)`. -/
  wh : ℕ × ℕ
  /-- Sink collaborator: does `video_out.isOpened()` still hold after
  `video_out.release()`?  (`false` is the normal successful release.) -/
  stillOpenAfterRelease : Bool

/-- The mutable program state the loop reads and writes: the globals
`motion_detected`, `video_out`, `recording_number`, plus the locals of
`main` that persist across iterations.  Locals that may be read before
their first assignment are `Option`s (`none` = unbound). -/
structure LoopState where
  motion_detected : Bool
  video_out : Option Writer
  recording_number : ℕ
  last_motion_time : Option ℚ
  recording_start_time : Option ℚ
  motion_detected_realtime : Option Bool
  recording_time_text : Option String
  recording_number_text : Option String
deriving DecidableEq, Repr

/-- State at entry of the loop: globals from lines 25-31
(`motion_detected = False`, `video_out = None`, `recording_number = 1`);
every persistent local of `main` still unbound. -/
def initState : LoopState :=
  { motion_detected := false
    video_out := none
    recording_number := 1
    last_motion_time := none
    recording_start_time := none
    motion_detected_realtime := none
    recording_time_text := none
    recording_number_text := none }

/-- Observable actions of one iteration, in program order. -/
inductive Event where
  /-- Line 443: `start_recording` succeeded for the session with this
  sequence number, using this file extension. -/
  | startRec : ℕ → String → Event
  /-- Line 461 print: `Recording n completed`. -/
  | completed : ℕ → Event
  /-- Line 462: `video_out.release()`. -/
  | released : Event
  /-- Line 465 print: `Error: Could not finish recording`. -/
  | couldNotFinish : Event
  /-- Line 471: call of `display_information` with the current values of
  `motion_detected_realtime`, `recording_time_text`,
  `recording_number_text`  (`none` = the local is unbound, so the Python
  call raises `UnboundLocalError`). -/
  | annot : Option Bool → Option String → Option String → Event
  /-- Line 475: `video_out.write(outframe)`. -/
  | wrote : Event
deriving DecidableEq, Repr

/-- Line 436 comparison for one contour: `cv2.contourArea(contour) > sensitivity`. -/
def anyExceeds (sens : ℚ) (areas : List ℚ) : Bool :=
  areas.any (fun a => sens < a)

/-- Zero-padded two-digit rendering of a value in `0..59`. -/
def pad2 (n : ℕ) : String :=
  if n < 10 then "0" ++ toString n else toString n

/-- Line 457: `time.strftime("Duration: %M:%S", time.gmtime(s))`. -/
def durationText (s : ℕ) : String :=
  "Duration: " ++ pad2 (s / 60 % 60) ++ ":" ++ pad2 (s % 60)

/-- Line 440: the video file base name. -/
def videoBaseName (timeName : String) (n : ℕ) : String :=
  output_folder ++ "/" ++ timeName ++ " - Recording " ++ toString n

/-- Source lines 453-481: the remainder of one loop iteration after the
contour scan — the inactivity check (`# Check for inactivity`), the
`display_information` call, and the conditional frame write.  `md`,
`vo`, `rst`, `lmt`, `rt` are the values of `motion_detected`,
`video_out`, `recording_start_time`, `last_motion_time`,
`motion_detected_realtime` after the scan, and `startEvents` the events
the scan emitted. -/
def tickRest (c : Ctx) (s : LoopState) (t : Tick) (md : Bool)
    (vo : Option Writer) (rst lmt : Option ℚ) (rt : Option Bool)
    (startEvents : List Event) : LoopState × List Event :=
  if md then
    -- lines 455-458
    let recording_time := t.now - lmt.getD 0
    let recording_time_s : ℕ := (⌊t.now - rst.getD 0⌋).toNat
    let ttext := durationText recording_time_s
    let ntext := "Total recordings: " ++ toString s.recording_number
    if c.recording_duration ≤ recording_time then
      -- lines 460-469: release the sink, check `isOpened`, reset; the
      -- `couldNotFinish` print fires when `video_out.isOpened()` is
      -- false after the release
      ({ motion_detected := false
         video_out := none
         recording_number := s.recording_number + 1
         last_motion_time := lmt
         recording_start_time := rst
         motion_detected_realtime := rt
         recording_time_text := some ttext
         recording_number_text := some ntext },
       startEvents ++ [Event.completed s.recording_number, Event.released] ++
         (if !c.stillOpenAfterRelease then [Event.couldNotFinish] else []) ++
         [Event.annot rt (some ttext) (some ntext)])
    else
      ({ motion_detected := md
         video_out := vo
         recording_number := s.recording_number
         last_motion_time := lmt
         recording_start_time := rst
         motion_detected_realtime := rt
         recording_time_text := some ttext
         recording_number_text := some ntext },
       startEvents ++ [Event.annot rt (some ttext) (some ntext)] ++
         (if vo.isSome then [Event.wrote] else []))
  else
    ({ motion_detected := md
       video_out := vo
       recording_number := s.recording_number
       last_motion_time := lmt
       recording_start_time := rst
       motion_detected_realtime := rt
       recording_time_text := s.recording_time_text
       recording_number_text := s.recording_number_text },
     startEvents ++ [Event.annot rt s.recording_time_text s.recording_number_text] ++
       (if vo.isSome then [Event.wrote] else []))

/-- Source lines 414-481: one iteration of the processing loop, from
`cap.read()` up to the key poll.  Lines 434-451 scan the contours: the
`for` loop breaks at the first contour whose area exceeds `sensitivity`,
triggering `start_recording` when no session is active.  Returns `none`
when the iteration terminated the process (`exit(1)` inside
`start_recording`), otherwise the new state and the events of the
iteration. -/
def step (c : Ctx) (s : LoopState) (t : Tick) : Option (LoopState × List Event) :=
  let exceeds := anyExceeds c.sensitivity t.areas
  let lmt := if exceeds then some t.now else s.last_motion_time
  let rt : Option Bool :=
    if exceeds then some true
    else if t.areas.isEmpty then s.motion_detected_realtime
    else some false
  if exceeds && !s.motion_detected then
    -- lines 437-446: first motion while IDLE starts a session
    match start_recording c.opens
        (videoBaseName t.timeName s.recording_number) c.wh.1 c.wh.2
        preferred_containers with
    | (Except.error _, _) => none   -- exit(1) at line 314
    | (Except.ok (_, ext), _) =>
      some (tickRest c s t true (some { id := s.recording_number })
        (some t.now) lmt rt [Event.startRec s.recording_number ext])
  else
    some (tickRest c s t (s.motion_detected || exceeds) s.video_out
      s.recording_start_time lmt rt [])

/-- Iterate `step` over a list of ticks, accumulating events; `none` when
some iteration exited the process. -/
def run (c : Ctx) (s : LoopState) : List Tick → Option (LoopState × List Event)
  | [] => some (s, [])
  | t :: ts =>
    match step c s t with
    | none => none
    | some (s2, es) =>
      match run c s2 ts with
      | none => none
      | some (s3, es2) => some (s3, es ++ es2)

/-! ## Theorems for the claims -/

/-- Claim C4, as stated, is false at its own scenario: the Sensitivity
Calibrator at nominal 700 and resolution 640×480 yields exactly
`700 * (640*480) / (1280*720) = 700/3 ≈ 233.3`, which is nowhere near
the claimed `≈ 155.6` (the distance exceeds 77). -/
theorem C4_counterexample :
    initialize_sensitivity nominal_sensitivity 640 480 = 700 / 3 ∧
    233 < initialize_sensitivity nominal_sensitivity 640 480 ∧
    initialize_sensitivity nominal_sensitivity 640 480 < 234 ∧
    77 < |initialize_sensitivity nominal_sensitivity 640 480 - 1556 / 10| := by
  norm_num [initialize_sensitivity, nominal_sensitivity, abs_of_pos]

/-- Claim C4 (amended): the threshold scales exactly linearly with the
capture area — doubling the pixel area doubles the threshold — and the
scenario nominal 700 at 640×480 yields `700/3 ≈ 233.3` (not the claimed
155.6). -/
theorem C4_threshold_scaling :
    (∀ (n : ℚ) (w h w2 h2 : ℕ), w2 * h2 = 2 * (w * h) →
        initialize_sensitivity n w2 h2 = 2 * initialize_sensitivity n w h) ∧
    initialize_sensitivity nominal_sensitivity 640 480 = 700 / 3 := by
  constructor
  · intro n w h w2 h2 hA
    have hA2 : (w2 : ℚ) * (h2 : ℚ) = 2 * ((w : ℚ) * (h : ℚ)) := by
      have hc := congrArg (fun k : ℕ => (k : ℚ)) hA
      push_cast at hc
      exact hc
    unfold initialize_sensitivity
    rw [hA2]
    ring
  · norm_num [initialize_sensitivity, nominal_sensitivity]

/-- Witness for `C4_threshold_scaling`: 32·20 = 2·(16·20), and the
threshold doubles accordingly. -/
theorem C4_threshold_scaling_witness :
    initialize_sensitivity 700 32 20 = 2 * initialize_sensitivity 700 16 20 :=
  C4_threshold_scaling.1 700 16 20 32 20 (by norm_num)

/-- Claim C5, as stated, is false: `initialize` rebinds the module
global `sensitivity` (line 253), so a second call with the same
`(640, 480)` observes `700/3`, not the nominal 700, and returns `700/9`
— not bit-identical to the first call's `700/3`. -/
theorem C5_counterexample :
    initialize_sensitivity (initialize_sensitivity nominal_sensitivity 640 480) 640 480 ≠
      initialize_sensitivity nominal_sensitivity 640 480 ∧
    initialize_sensitivity nominal_sensitivity 640 480 = 700 / 3 ∧
    initialize_sensitivity (initialize_sensitivity nominal_sensitivity 640 480) 640 480
      = 700 / 9 := by
  norm_num [initialize_sensitivity, nominal_sensitivity]

/-- Claim C5 (amended): the calibrator rebinds the global it reads, so
two successive calls with the same `(width, height)` compose the
scaling — the result is `nominal * (area/ref)^2` — and the calibrator is
idempotent at the reference resolution 1280×720 (scaling factor 1) but
not in general. -/
theorem C5_calibrator_rebinds_global :
    (∀ (s : ℚ) (w h : ℕ),
        initialize_sensitivity (initialize_sensitivity s w h) w h =
          s * (((w : ℚ) * (h : ℚ)) / (1280 * 720)) ^ 2) ∧
    (∀ s : ℚ, initialize_sensitivity s 1280 720 = s) := by
  constructor
  · intro s w h
    unfold initialize_sensitivity
    ring
  · intro s
    unfold initialize_sensitivity
    norm_num

/-- Claim C6, as stated, is false: the two frames do not carry identical
textual content.  At a concrete tick the display frame carries four text
operations (timestamp, motion status, duration, session count) while the
recording frame carries only three — the motion-status line is missing —
and the duration/count lines sit at different positions. -/
theorem C6_counterexample :
    (display_information ("T") 50 640 true ("Duration: 00:05")
        ("Total recordings: 1")).1.texts.map (fun o => (o.text, o.x, o.y)) ≠
      (display_information ("T") 50 640 true ("Duration: 00:05")
        ("Total recordings: 1")).2.texts.map (fun o => (o.text, o.x, o.y)) ∧
    (display_information ("T") 50 640 true ("Duration: 00:05")
        ("Total recordings: 1")).1.texts.length = 4 ∧
    (display_information ("T") 50 640 true ("Duration: 00:05")
        ("Total recordings: 1")).2.texts.length = 3 := by
  refine ⟨?_, rfl, rfl⟩
  simp [display_information]

/-- Claim C6 (amended): per tick the display frame carries the
timestamp (top-right), motion status, duration and session count, the
recording frame the same timestamp (same operation, same position) and
the same duration and count strings but no motion-status line and with
the duration/count lines 30 pixels higher; the contour highlight is
composited on the display frame only. -/
theorem C6_annotation_frames (ts : String) (tw mw : ℤ) (rt : Bool)
    (tt nt : String) :
    (display_information ts tw mw rt tt nt).1.texts.map
        (fun o => (o.text, o.x, o.y)) =
      [(ts, mw - tw - 10, 30),
       ((if rt then ("Motion detected") else ("No motion detected")), 10, 30),
       (tt, 10, 60), (nt, 10, 90)] ∧
    (display_information ts tw mw rt tt nt).2.texts.map
        (fun o => (o.text, o.x, o.y)) =
      [(ts, mw - tw - 10, 30), (tt, 10, 30), (nt, 10, 60)] ∧
    (display_information ts tw mw rt tt nt).1.texts.head? =
      (display_information ts tw mw rt tt nt).2.texts.head? ∧
    (display_information ts tw mw rt tt nt).1.highlighted = true ∧
    (display_information ts tw mw rt tt nt).2.highlighted = false := by
  cases rt <;> simp [display_information]

/-- The probes (request, read-back pairs) the Resolution Negotiator
makes against a device. -/
def negotiation_probes (dev : ℕ → ℕ × ℕ → ℕ × ℕ) : List ((ℕ × ℕ) × (ℕ × ℕ)) :=
  (find_highest_resolution_trace dev 0 resolutions_to_try).2

/-- Claim C2: for every device behaviour, the Resolution Negotiator
probes the fixed candidate list in descending order
(the probed requests are an initial segment of the list), never probes
past a match (every probe but the last read back a mismatch), returns
either an exact candidate or `(0, 0)`, and a non-`(0, 0)` result is
exactly the last probe's matched request; a `(0, 0)` result makes the
caller print a message and proceed, never abort. -/
theorem C2_resolution_negotiation (dev : ℕ → ℕ × ℕ → ℕ × ℕ) :
    (find_highest_resolution dev ∈ resolutions_to_try ∨
      find_highest_resolution dev = (0, 0)) ∧
    (negotiation_probes dev).map Prod.fst =
      resolutions_to_try.take (negotiation_probes dev).length ∧
    (∀ p ∈ (negotiation_probes dev).dropLast, p.2 ≠ p.1) ∧
    (find_highest_resolution dev ≠ (0, 0) →
      ∃ q, (negotiation_probes dev).getLast? = some q ∧ q.2 = q.1 ∧
        find_highest_resolution dev = q.1) ∧
    (∃ msg, resolution_report (find_highest_resolution dev) = Except.ok msg) := by
  simp only [find_highest_resolution, negotiation_probes, resolutions_to_try,
    find_highest_resolution_trace, resolution_report]
  split_ifs <;> simp_all

/-- Witness for `C2_resolution_negotiation`: a device that accepts only
the third candidate.  The first probe reads back a mismatch, and the
result `(640, 480)` is the matched last probe. -/
theorem C2_resolution_negotiation_witness :
    (((1920, 1080), (5, 5)) : (ℕ × ℕ) × (ℕ × ℕ)).2 ≠
      (((1920, 1080), (5, 5)) : (ℕ × ℕ) × (ℕ × ℕ)).1 ∧
    (∃ q, (negotiation_probes
          (fun i c => if i = 2 then c else (5, 5))).getLast? = some q ∧
      q.2 = q.1 ∧
      find_highest_resolution (fun i c => if i = 2 then c else (5, 5)) = q.1) := by
  refine ⟨(C2_resolution_negotiation (fun i c => if i = 2 then c else (5, 5))).2.2.1
      ((1920, 1080), (5, 5)) ?_,
    (C2_resolution_negotiation (fun i c => if i = 2 then c else (5, 5))).2.2.2.1 ?_⟩
  · decide
  · decide

/-- Claim C3: the Output Negotiator tries MKV then MP4 strictly in
order, stops at the first writer that opens (an MKV success means one
attempt and `.mkv`; an MKV failure followed by an MP4 success means
exactly two attempts and `.mp4`), and when both fail it exits the run
with status 1 ≠ 0. -/
theorem C3_output_negotiation (opens : String → String → ℕ → ℕ × ℕ → Bool)
    (base : String) (w h : ℕ) :
    (opens ("X264") (base ++ ".mkv") 20 (w, h) = true →
      start_recording opens base w h preferred_containers =
        (Except.ok (("MKV"), (".mkv")), [base ++ ".mkv"])) ∧
    (opens ("X264") (base ++ ".mkv") 20 (w, h) = false →
      opens ("mp4v") (base ++ ".mp4") 20 (w, h) = true →
      start_recording opens base w h preferred_containers =
        (Except.ok (("MP4"), (".mp4")), [base ++ ".mkv", base ++ ".mp4"])) ∧
    (opens ("X264") (base ++ ".mkv") 20 (w, h) = false →
      opens ("mp4v") (base ++ ".mp4") 20 (w, h) = false →
      (start_recording opens base w h preferred_containers).1 = Except.error 1 ∧
        (1 : ℕ) ≠ 0) := by
  refine ⟨fun h1 => ?_, fun h1 h2 => ?_, fun h1 h2 => ?_⟩ <;>
    simp [start_recording, preferred_containers, container_params, h1]
  · simp [h2]
  · simp [h2]

/-- Witness for `C3_output_negotiation`: a writer factory that accepts
only the MP4 codec; negotiation makes two attempts and settles on
`.mp4`. -/
theorem C3_output_negotiation_witness :
    start_recording (fun fourcc _ _ _ => fourcc == "mp4v") ("base") 640 480
        preferred_containers =
      (Except.ok (("MP4"), (".mp4")), ["base" ++ ".mkv", "base" ++ ".mp4"]) :=
  (C3_output_negotiation (fun fourcc _ _ _ => fourcc == "mp4v") ("base") 640 480).2.1
    (by decide) (by decide)

/-! ### Concrete fixtures and invariant lemmas for the processing loop -/

/-- A context for concrete runs: scaled sensitivity 100, a writer
factory that always opens, 640×480 capture, releases that leave the
handle closed (the normal collaborator behaviour). -/
def testCtx : Ctx :=
  { sensitivity := 100
    opens := fun _ _ _ _ => true
    wh := (640, 480)
    stillOpenAfterRelease := false }

/-- Tick with given contour areas and timestamp. -/
def mkTick (as : List ℚ) (n : ℚ) : Tick :=
  { areas := as, now := n, timeName := "T" }

/-- `tickRest` preserves the sink invariant: if the sink handle passed
in is non-null exactly when `motion_detected` is set, the same holds of
the state it produces. -/
theorem tickRest_sink_iff (c : Ctx) (s : LoopState) (t : Tick) (md : Bool)
    (vo : Option Writer) (rst lmt : Option ℚ) (rt : Option Bool)
    (evs : List Event) (h : vo.isSome ↔ md = true) :
    ((tickRest c s t md vo rst lmt rt evs).1.video_out.isSome ↔
      (tickRest c s t md vo rst lmt rt evs).1.motion_detected = true) := by
  simp only [tickRest]
  split_ifs <;> simp_all

/-- `step` preserves the sink invariant. -/
theorem step_sink_iff (c : Ctx) (s : LoopState) (t : Tick) (s2 : LoopState)
    (es : List Event) (h : s.video_out.isSome ↔ s.motion_detected = true)
    (hstep : step c s t = some (s2, es)) :
    s2.video_out.isSome ↔ s2.motion_detected = true := by
  simp only [step] at hstep
  split at hstep
  · split at hstep
    · exact absurd hstep (by simp)
    · obtain ⟨h1, -⟩ : (tickRest c s t true (some { id := s.recording_number })
          (some t.now)
          (if anyExceeds c.sensitivity t.areas = true then some t.now
            else s.last_motion_time)
          (if anyExceeds c.sensitivity t.areas = true then some true
            else if t.areas.isEmpty = true then s.motion_detected_realtime
            else some false)
          [Event.startRec s.recording_number _]).1 = s2 ∧ _ := by
        simpa [Prod.ext_iff] using hstep
      rw [← h1]
      exact tickRest_sink_iff c s t true _ _ _ _ _ (by simp)
  · obtain ⟨h1, -⟩ : (tickRest c s t (s.motion_detected || anyExceeds c.sensitivity t.areas)
        s.video_out s.recording_start_time
        (if anyExceeds c.sensitivity t.areas = true then some t.now
          else s.last_motion_time)
        (if anyExceeds c.sensitivity t.areas = true then some true
          else if t.areas.isEmpty = true then s.motion_detected_realtime
          else some false)
        []).1 = s2 ∧ _ := by
      simpa [Prod.ext_iff] using hstep
    rw [← h1]
    refine tickRest_sink_iff c s t _ _ _ _ _ _ ?_
    rename_i hcond
    cases hm : s.motion_detected <;> simp_all

/-- `run` preserves the sink invariant along any tick sequence. -/
theorem run_sink_iff (c : Ctx) (ticks : List Tick) :
    ∀ s : LoopState, (s.video_out.isSome ↔ s.motion_detected = true) →
      ∀ (s2 : LoopState) (evs : List Event),
        run c s ticks = some (s2, evs) →
        (s2.video_out.isSome ↔ s2.motion_detected = true) := by
  induction ticks with
  | nil =>
    intro s h s2 evs hrun
    simp only [run, Option.some_inj, Prod.ext_iff] at hrun
    exact hrun.1 ▸ h
  | cons t ts ih =>
    intro s h s2 evs hrun
    simp only [run] at hrun
    cases hstep : step c s t with
    | none => simp [hstep] at hrun
    | some p =>
      obtain ⟨sm, es⟩ := p
      rw [hstep] at hrun
      dsimp only at hrun
      cases hrun2 : run c sm ts with
      | none => simp [hrun2] at hrun
      | some q =>
        obtain ⟨s3, es2⟩ := q
        rw [hrun2] at hrun
        dsimp only at hrun
        simp only [Option.some_inj, Prod.ext_iff] at hrun
        exact hrun.1 ▸ ih sm (step_sink_iff c s t sm es h hstep) s3 es2 hrun2

/-- Claim C8: in every state reachable by the processing loop from the
initial state, the sink handle `video_out` is non-null exactly when
`motion_detected` (the RECORDING state) holds; and a tick processed
while already RECORDING never starts a second session — it emits no
session-start event and either preserves the sink handle unchanged or
releases it. -/
theorem C8_single_session :
    (∀ (c : Ctx) (ticks : List Tick) (s : LoopState) (evs : List Event),
        run c initState ticks = some (s, evs) →
        (s.video_out.isSome ↔ s.motion_detected = true)) ∧
    (∀ (c : Ctx) (s : LoopState) (t : Tick) (s2 : LoopState) (es : List Event),
        s.motion_detected = true → step c s t = some (s2, es) →
        (∀ (n : ℕ) (e : String), Event.startRec n e ∉ es) ∧
        (s2.video_out = s.video_out ∨ s2.video_out = none)) := by
  constructor
  · intro c ticks s evs hrun
    exact run_sink_iff c ticks initState (by simp [initState]) s evs hrun
  · intro c s t s2 es hmd hstep
    simp only [step, hmd, Bool.not_true, Bool.and_false, Bool.true_or,
      if_neg Bool.false_ne_true] at hstep
    obtain ⟨h1, h2⟩ : (tickRest c s t true s.video_out s.recording_start_time
        (if anyExceeds c.sensitivity t.areas = true then some t.now
          else s.last_motion_time)
        (if anyExceeds c.sensitivity t.areas = true then some true
          else if t.areas.isEmpty = true then s.motion_detected_realtime
          else some false)
        []).1 = s2 ∧ (tickRest c s t true s.video_out s.recording_start_time
        (if anyExceeds c.sensitivity t.areas = true then some t.now
          else s.last_motion_time)
        (if anyExceeds c.sensitivity t.areas = true then some true
          else if t.areas.isEmpty = true then s.motion_detected_realtime
          else some false)
        []).2 = es := by
      simpa [Prod.ext_iff] using hstep
    rw [← h1, ← h2]
    simp only [tickRest]
    split_ifs <;> simp_all

/-- A mid-session state: RECORDING, session 1 started at time 0, last
motion at time 0. -/
def recState : LoopState :=
  { motion_detected := true
    video_out := some { id := 1 }
    recording_number := 1
    last_motion_time := some 0
    recording_start_time := some 0
    motion_detected_realtime := some true
    recording_time_text := some ("Duration: 00:00")
    recording_number_text := some ("Total recordings: 1") }

/-- The state after `recState` sees a session-closing tick at time 31. -/
def sessionEndState : LoopState :=
  { motion_detected := false
    video_out := none
    recording_number := 2
    last_motion_time := some 0
    recording_start_time := some 0
    motion_detected_realtime := some true
    recording_time_text := some ("Duration: 00:31")
    recording_number_text := some ("Total recordings: 1") }

/-- The events of that session-closing tick. -/
def sessionEndEvents : List Event :=
  [Event.completed 1, Event.released, Event.couldNotFinish,
   Event.annot (some true) (some ("Duration: 00:31")) (some ("Total recordings: 1"))]

/-- Witness for `C8_single_session`: the invariant holds at the initial
state (the empty run), and a session-closing tick processed while
RECORDING emits no session-start event and releases the sink. -/
theorem C8_single_session_witness :
    (initState.video_out.isSome ↔ initState.motion_detected = true) ∧
    (∀ (n : ℕ) (e : String), Event.startRec n e ∉ sessionEndEvents) ∧
    (sessionEndState.video_out = recState.video_out ∨
      sessionEndState.video_out = none) :=
  ⟨C8_single_session.1 testCtx [] initState [] rfl,
   C8_single_session.2 testCtx recState (mkTick [] 31) sessionEndState
     sessionEndEvents rfl
     (by
       norm_num [step, tickRest, anyExceeds, testCtx, mkTick, recState,
         sessionEndState, sessionEndEvents, durationText, pad2,
         default_recording_duration]
       decide)⟩

/-- Claim C1, as stated, is false on the code: with duration `D = 30`, a
session triggered at `T0 = 0` that sees motion again at time 10 is still
RECORDING at the tick at time 30 — the first tick with `now - T0 ≥ D` —
because line 455 computes the elapsed time against `last_motion_time`,
not `recording_start_time`; the session only closes at time 40
(`= 10 + D`).  The expiry is therefore not anchored on the session start
and not independent of interleaved motion. -/
theorem C1_counterexample :
    (run testCtx initState [mkTick [200] 0, mkTick [200] 10, mkTick [] 30]).map
        (fun p => (p.1.motion_detected, p.1.video_out.isSome, p.1.recording_number)) =
      some (true, true, 1) ∧
    (run testCtx initState
        [mkTick [200] 0, mkTick [200] 10, mkTick [] 30, mkTick [] 40]).map
        (fun p => (p.1.motion_detected, p.1.video_out.isSome, p.1.recording_number)) =
      some (false, false, 2) := by
  norm_num [run, step, tickRest, anyExceeds, initState, testCtx, mkTick,
    start_recording, preferred_containers, container_params, videoBaseName,
    output_folder, default_recording_duration, durationText, pad2]

/-- On a RECORDING tick, the session ends exactly when the configured
duration has elapsed since the (scan-updated) `last_motion_time`. -/
theorem tickRest_session_end_iff (c : Ctx) (s : LoopState) (t : Tick)
    (vo : Option Writer) (rst lmt : Option ℚ) (rt : Option Bool)
    (evs : List Event) :
    ((tickRest c s t true vo rst lmt rt evs).1.motion_detected = false ↔
      c.recording_duration ≤ t.now - lmt.getD 0) := by
  simp only [tickRest]
  split_ifs with h <;> simp_all

/-- Claim C1 (amended): while RECORDING, a tick closes the session
exactly when `now - last_motion_at ≥ recording_duration`, where
`last_motion_at` is refreshed to `now` by any motion on the same tick —
the expiry is anchored on the most recent motion time, not the session
start, so interleaved `motion_now = true` ticks postpone it; it
coincides with `now - started_at ≥ D` only when no motion occurred after
the trigger. -/
theorem C1_expiry_anchored_on_last_motion (c : Ctx) (s : LoopState) (t : Tick)
    (L : ℚ) (s2 : LoopState) (es : List Event)
    (hmd : s.motion_detected = true) (hl : s.last_motion_time = some L)
    (hstep : step c s t = some (s2, es)) :
    s2.motion_detected = false ↔
      c.recording_duration ≤
        t.now - (if anyExceeds c.sensitivity t.areas then t.now else L) := by
  simp only [step, hmd, Bool.not_true, Bool.and_false, Bool.false_eq_true,
    if_false, Bool.true_or] at hstep
  obtain ⟨h1, -⟩ : (tickRest c s t true s.video_out s.recording_start_time
      (if anyExceeds c.sensitivity t.areas = true then some t.now
        else s.last_motion_time)
      (if anyExceeds c.sensitivity t.areas = true then some true
        else if t.areas.isEmpty = true then s.motion_detected_realtime
        else some false)
      []).1 = s2 ∧ _ := by
    simpa [Prod.ext_iff] using hstep
  rw [← h1, tickRest_session_end_iff]
  cases hex : anyExceeds c.sensitivity t.areas <;> simp [hex, hl]

/-- Witness for `C1_expiry_anchored_on_last_motion`: a motionless tick
at time 31 against a session whose last motion was at time 0 closes the
session, since `31 - 0 ≥ 30`. -/
theorem C1_expiry_witness :
    sessionEndState.motion_detected = false ↔
      testCtx.recording_duration ≤
        (mkTick [] 31).now -
          (if anyExceeds testCtx.sensitivity (mkTick [] 31).areas
            then (mkTick [] 31).now else (0 : ℚ)) :=
  C1_expiry_anchored_on_last_motion testCtx recState (mkTick [] 31) 0
    sessionEndState sessionEndEvents rfl rfl
    (by
      norm_num [step, tickRest, anyExceeds, testCtx, mkTick, recState,
        sessionEndState, sessionEndEvents, durationText, pad2,
        default_recording_duration]
      decide)

/-- Claim C7 exposes a code bug: the check at line 464 is inverted.  The
code prints `Error: Could not finish recording` when
`video_out.isOpened()` is false after the release — i.e. exactly when
the release succeeded and the handle is closed (first conjunct, the
normal collaborator) — and prints nothing when the handle stays open
(second conjunct, the anomaly the message was meant for).  The sink is
released exactly once per completion and the run continues into the
next session (third conjunct). -/
theorem C7_close_check_inverted :
    (run testCtx initState [mkTick [200] 0, mkTick [] 30]).map (fun p => p.2) =
      some [Event.startRec 1 (".mkv"),
        Event.annot (some true) (some ("Duration: 00:00"))
          (some ("Total recordings: 1")),
        Event.wrote, Event.completed 1, Event.released, Event.couldNotFinish,
        Event.annot (some true) (some ("Duration: 00:30"))
          (some ("Total recordings: 1"))] ∧
    (run { testCtx with stillOpenAfterRelease := true } initState
        [mkTick [200] 0, mkTick [] 30]).map (fun p => p.2) =
      some [Event.startRec 1 (".mkv"),
        Event.annot (some true) (some ("Duration: 00:00"))
          (some ("Total recordings: 1")),
        Event.wrote, Event.completed 1, Event.released,
        Event.annot (some true) (some ("Duration: 00:30"))
          (some ("Total recordings: 1"))] ∧
    (run testCtx initState [mkTick [200] 0, mkTick [] 30, mkTick [300] 50]).map
        (fun p => p.2) =
      some [Event.startRec 1 (".mkv"),
        Event.annot (some true) (some ("Duration: 00:00"))
          (some ("Total recordings: 1")),
        Event.wrote, Event.completed 1, Event.released, Event.couldNotFinish,
        Event.annot (some true) (some ("Duration: 00:30"))
          (some ("Total recordings: 1")),
        Event.startRec 2 (".mkv"),
        Event.annot (some true) (some ("Duration: 00:00"))
          (some ("Total recordings: 2")),
        Event.wrote] := by
  refine ⟨?_, ?_, ?_⟩ <;>
    norm_num [run, step, tickRest, anyExceeds, initState, testCtx, mkTick,
      start_recording, preferred_containers, container_params, videoBaseName,
      output_folder, default_recording_duration, durationText, pad2] <;>
    decide

/-- Claim C9, as stated, is false on the code: the `else` arm of the
contour loop only assigns `motion_detected_realtime = False` for
contours it examines, so a tick with an *empty* contour set leaves the
flag at its previous value.  Concretely, after a motion tick at time 0
the tick at time 10 has no contours, yet the state and that tick's
annotation call still carry `motion_now = some true` (the claim requires
false, not carried over). -/
theorem C9_counterexample :
    (run testCtx initState [mkTick [200] 0, mkTick [] 10]).map
        (fun p => (p.1.motion_detected_realtime, p.2)) =
      some (some true,
        [Event.startRec 1 (".mkv"),
         Event.annot (some true) (some ("Duration: 00:00"))
           (some ("Total recordings: 1")),
         Event.wrote,
         Event.annot (some true) (some ("Duration: 00:10"))
           (some ("Total recordings: 1")),
         Event.wrote]) := by
  norm_num [run, step, tickRest, anyExceeds, initState, testCtx, mkTick,
    start_recording, preferred_containers, container_params, videoBaseName,
    output_folder, default_recording_duration, durationText, pad2]
  decide

/-- After a tick the `motion_detected_realtime` local equals the value
the contour scan produced, and the tick's `display_information` call
receives exactly the current values of the three locals. -/
theorem tickRest_annot_flag (c : Ctx) (s : LoopState) (t : Tick) (md : Bool)
    (vo : Option Writer) (rst lmt : Option ℚ) (rt : Option Bool)
    (evs : List Event) :
    (tickRest c s t md vo rst lmt rt evs).1.motion_detected_realtime = rt ∧
    Event.annot rt (tickRest c s t md vo rst lmt rt evs).1.recording_time_text
        (tickRest c s t md vo rst lmt rt evs).1.recording_number_text ∈
      (tickRest c s t md vo rst lmt rt evs).2 := by
  simp only [tickRest]
  split_ifs <;> simp

/-- Claim C9 (amended): on every tick, `motion_now` is `true` iff some
contour area exceeds the threshold *provided the tick's contour set is
non-empty*; on an empty contour set the flag is carried over unchanged
from the previous tick (or stays unbound), and the tick's annotation
call receives whatever the flag currently holds. -/
theorem C9_motion_flag_semantics (c : Ctx) (s : LoopState) (t : Tick)
    (s2 : LoopState) (es : List Event)
    (hstep : step c s t = some (s2, es)) :
    s2.motion_detected_realtime =
      (if anyExceeds c.sensitivity t.areas then some true
        else if t.areas.isEmpty then s.motion_detected_realtime
        else some false) ∧
    (t.areas ≠ [] →
      s2.motion_detected_realtime = some (anyExceeds c.sensitivity t.areas)) ∧
    Event.annot s2.motion_detected_realtime s2.recording_time_text
      s2.recording_number_text ∈ es := by
  have flag : ∀ (md : Bool) (vo : Option Writer) (rst lmt : Option ℚ)
      (rt : Option Bool) (evs : List Event),
      (tickRest c s t md vo rst lmt rt evs).1 = s2 →
      (tickRest c s t md vo rst lmt rt evs).2 = es →
      s2.motion_detected_realtime = rt ∧
        Event.annot s2.motion_detected_realtime s2.recording_time_text
          s2.recording_number_text ∈ es := by
    intro md vo rst lmt rt evs h1 h2
    rw [← h1, ← h2]
    refine ⟨(tickRest_annot_flag c s t md vo rst lmt rt evs).1, ?_⟩
    rw [(tickRest_annot_flag c s t md vo rst lmt rt evs).1]
    exact (tickRest_annot_flag c s t md vo rst lmt rt evs).2
  have main : s2.motion_detected_realtime =
      (if anyExceeds c.sensitivity t.areas then some true
        else if t.areas.isEmpty then s.motion_detected_realtime
        else some false) ∧
      Event.annot s2.motion_detected_realtime s2.recording_time_text
        s2.recording_number_text ∈ es := by
    simp only [step] at hstep
    split at hstep
    · split at hstep
      · exact absurd hstep (by simp)
      · rw [Option.some_inj] at hstep
        exact flag _ _ _ _ _ _ (congrArg Prod.fst hstep)
          (congrArg Prod.snd hstep)
    · rw [Option.some_inj] at hstep
      exact flag _ _ _ _ _ _ (congrArg Prod.fst hstep)
        (congrArg Prod.snd hstep)
  refine ⟨main.1, fun hne => ?_, main.2⟩
  rw [main.1]
  have h3 : t.areas.isEmpty = false := by simpa using hne
  cases hex : anyExceeds c.sensitivity t.areas <;> simp [hex, h3]

/-- State after `initState` sees one tick whose single contour does not
exceed the threshold: only the motion flag local gets assigned. -/
def scannedState : LoopState :=
  { initState with motion_detected_realtime := some false }

/-- Witness for `C9_motion_flag_semantics`: a tick with one
sub-threshold contour assigns the flag `some false` and the annotation
call receives it. -/
theorem C9_motion_flag_witness :
    (scannedState.motion_detected_realtime =
      (if anyExceeds testCtx.sensitivity (mkTick [1] 5).areas then some true
        else if (mkTick [1] 5).areas.isEmpty then
          initState.motion_detected_realtime
        else some false)) ∧
    ((mkTick [1] 5).areas ≠ [] →
      scannedState.motion_detected_realtime =
        some (anyExceeds testCtx.sensitivity (mkTick [1] 5).areas)) ∧
    Event.annot scannedState.motion_detected_realtime
      scannedState.recording_time_text scannedState.recording_number_text ∈
      [Event.annot (some false) none none] :=
  C9_motion_flag_semantics testCtx initState (mkTick [1] 5) scannedState
    [Event.annot (some false) none none]
    (by
      norm_num [step, tickRest, anyExceeds, testCtx, mkTick, initState,
        scannedState])

/-- A frame none of whose contour areas exceeds the sensitivity yields
`motion_now = false` from the scan. -/
theorem anyExceeds_eq_false_of_le (sens : ℚ) (areas : List ℚ)
    (h : ∀ a ∈ areas, a ≤ sens) : anyExceeds sens areas = false := by
  simp only [anyExceeds, List.any_eq_false, decide_eq_true_eq]
  intro a ha
  exact not_lt.mpr (h a ha)

/-- Along any run in which no contour ever exceeds the threshold, the
machine stays out of RECORDING, the text locals stay unbound, every
annotation call receives unbound texts, and — when additionally every
contour set is empty — the motion-flag local also stays unbound. -/
theorem run_no_trigger (c : Ctx) (ticks : List Tick) :
    ∀ s : LoopState, s.motion_detected = false →
      s.recording_time_text = none → s.recording_number_text = none →
      (∀ t ∈ ticks, ∀ a ∈ t.areas, a ≤ c.sensitivity) →
      ∃ (s2 : LoopState) (evs : List Event),
        run c s ticks = some (s2, evs) ∧ s2.motion_detected = false ∧
        s2.recording_time_text = none ∧ s2.recording_number_text = none ∧
        (∀ (rt : Option Bool) (tt nt : Option String),
          Event.annot rt tt nt ∈ evs → tt = none ∧ nt = none) ∧
        ((s.motion_detected_realtime = none ∧ ∀ t ∈ ticks, t.areas = []) →
          s2.motion_detected_realtime = none ∧
          ∀ (rt : Option Bool) (tt nt : Option String),
            Event.annot rt tt nt ∈ evs → rt = none) := by
  induction ticks with
  | nil =>
    intro s h1 h2 h3 _
    exact ⟨s, [], rfl, h1, h2, h3, by simp, fun hh => ⟨hh.1, by simp⟩⟩
  | cons t ts ih =>
    intro s h1 h2 h3 hq
    have hex : anyExceeds c.sensitivity t.areas = false :=
      anyExceeds_eq_false_of_le _ _ (hq t (by simp))
    have hstep : step c s t =
        some ({ motion_detected := false
                video_out := s.video_out
                recording_number := s.recording_number
                last_motion_time := s.last_motion_time
                recording_start_time := s.recording_start_time
                motion_detected_realtime :=
                  if t.areas.isEmpty then s.motion_detected_realtime
                  else some false
                recording_time_text := none
                recording_number_text := none },
              Event.annot
                  (if t.areas.isEmpty then s.motion_detected_realtime
                    else some false) none none ::
                (if s.video_out.isSome then [Event.wrote] else [])) := by
      simp [step, tickRest, hex, h1, h2, h3]
    obtain ⟨s3, evs2, hrun2, g1, g2, g3, g4, g5⟩ :=
      ih { motion_detected := false
           video_out := s.video_out
           recording_number := s.recording_number
           last_motion_time := s.last_motion_time
           recording_start_time := s.recording_start_time
           motion_detected_realtime :=
             if t.areas.isEmpty then s.motion_detected_realtime
             else some false
           recording_time_text := none
           recording_number_text := none }
        rfl rfl rfl (fun u hu => hq u (by simp [hu]))
    refine ⟨s3,
      (Event.annot
          (if t.areas.isEmpty then s.motion_detected_realtime else some false)
          none none ::
        (if s.video_out.isSome then [Event.wrote] else [])) ++ evs2,
      ?_, g1, g2, g3, ?_, ?_⟩
    · simp only [run, hstep, hrun2]
    · intro rt tt nt hmem
      rcases List.mem_append.mp hmem with hm | hm
      · rcases List.mem_cons.mp hm with hm2 | hm2
        · obtain ⟨-, h5, h6⟩ := Event.annot.inj hm2.symm
          exact ⟨h5.symm, h6.symm⟩
        · split at hm2 <;> simp at hm2
      · exact g4 rt tt nt hm
    · rintro ⟨hrt, hall⟩
      have hemp : t.areas = [] := hall t (by simp)
      have hemp2 : t.areas.isEmpty = true := by simp [hemp]
      obtain ⟨g5a, g5b⟩ := g5 ⟨by simp [hemp2, hrt], fun u hu => hall u (by simp [hu])⟩
      refine ⟨g5a, ?_⟩
      intro rt tt nt hmem
      rcases List.mem_append.mp hmem with hm | hm
      · rcases List.mem_cons.mp hm with hm2 | hm2
        · obtain ⟨h4, -, -⟩ := Event.annot.inj hm2.symm
          rw [← h4]
          simp [hemp2, hrt]
        · split at hm2 <;> simp at hm2
      · exact g5b rt tt nt hm

/-- Claim C10: on every loop iteration before the first
IDLE→RECORDING transition (formalised as: along any run in which no
contour area ever exceeds the threshold), the `display_information`
call receives `recording_time_text` and `recording_number_text` that
were never assigned, and — when every contour set so far was empty —
a `motion_detected_realtime` that was never assigned either; the
per-tick annotation call is only well-defined once a motion trigger has
assigned them. -/
theorem C10_pre_trigger_unbound_locals (c : Ctx) (ticks : List Tick)
    (hq : ∀ t ∈ ticks, ∀ a ∈ t.areas, a ≤ c.sensitivity) :
    ∃ (s : LoopState) (evs : List Event),
      run c initState ticks = some (s, evs) ∧
      (∀ (rt : Option Bool) (tt nt : Option String),
        Event.annot rt tt nt ∈ evs → tt = none ∧ nt = none) ∧
      ((∀ t ∈ ticks, t.areas = []) →
        ∀ (rt : Option Bool) (tt nt : Option String),
          Event.annot rt tt nt ∈ evs → rt = none) := by
  obtain ⟨s2, evs, hrun, -, -, -, g4, g5⟩ :=
    run_no_trigger c ticks initState rfl rfl rfl hq
  exact ⟨s2, evs, hrun, g4, fun hall => (g5 ⟨rfl, hall⟩).2⟩

/-- Witness for `C10_pre_trigger_unbound_locals`: two ticks, one with a
sub-threshold contour and one with no contours, never trigger and so
every annotation call sees unbound text locals. -/
theorem C10_pre_trigger_witness :
    ∃ (s : LoopState) (evs : List Event),
      run testCtx initState [mkTick [1] 0, mkTick [] 1] = some (s, evs) ∧
      (∀ (rt : Option Bool) (tt nt : Option String),
        Event.annot rt tt nt ∈ evs → tt = none ∧ nt = none) ∧
      ((∀ t ∈ [mkTick [1] 0, mkTick [] 1], t.areas = []) →
        ∀ (rt : Option Bool) (tt nt : Option String),
          Event.annot rt tt nt ∈ evs → rt = none) :=
  C10_pre_trigger_unbound_locals testCtx [mkTick [1] 0, mkTick [] 1]
    (by decide)

end CameraMotionRecorder
